import Mathlib

/-!
GestureFlow — verification of the real-time hand-mouse control pipeline.

Shallow embedding, in Lean, of the parts of the GestureFlow repository that
the behavioural claims concern: the pinch click/double-click state machine,
the calibration threshold derivation and apply/commit logic, the camera
resolution negotiation, the two-stage cursor smoothing filter, and the
coordinate mapping from fingertip pixels to screen coordinates.

Python floats are modelled as rationals (`ℚ`), Python ints as `ℤ`/`ℕ`,
`None` as `Option`.  Each definition carries a comment naming the source
function and lines it embeds.
-/

namespace GestureFlow

/-! ## Click/double-click state machine

Embeds the pinch-edge click logic of `HandMouseControllerApp.process_video_frame`
(`main_app.py`, lines 391-411) which is identical to
`HandMouseController.process_video_frame` (`main.py`, lines 338-361):

```
if pinch_distance_logic < self.pinch_threshold_distance_config: is_pinching_this_frame = True
else: is_pinching_this_frame = False
if is_pinching_this_frame and not self.is_pinching_prev_frame:
    ctime = time.perf_counter()
    if (ctime - self.last_click_event_time) < self.double_click_window_sec:
        self.mouse_controller.click(count=2)
        self.last_click_event_time = 0
    else:
        self.mouse_controller.click(count=1)
    self.last_click_event_time = ctime     # unconditional: overwrites the 0 above
self.is_pinching_prev_frame = is_pinching_this_frame
```

and, in the no-hand branch (lines 408-411 / 357-361):
`self.is_pinching_prev_frame = False` (history clearing is modelled with the
smoothing filter below).
-/

structure PinchState where
  is_pinching_prev_frame : Bool
  last_click_event_time : ℚ
  deriving DecidableEq

inductive ClickEvent
  | noClick
  | singleClick
  | doubleClick
  deriving DecidableEq

/-- One tick of the click state machine.  `pinchDistance = none` models the
no-hand-detected branch.  The double-click branch assigns
`last_click_event_time := 0` and the source then unconditionally assigns
`last_click_event_time := ctime` after the if/else, overwriting the `0`;
the sequential dead store is kept here as two `let` bindings to mirror the
source exactly. -/
def clickTick (doubleClickWindowSec pinchThresholdDistance : ℚ)
    (s : PinchState) (pinchDistance : Option ℚ) (ctime : ℚ) :
    PinchState × ClickEvent :=
  match pinchDistance with
  | none => ({ s with is_pinching_prev_frame := false }, ClickEvent.noClick)
  | some d =>
    let is_pinching_this_frame : Bool := d < pinchThresholdDistance
    if is_pinching_this_frame && !s.is_pinching_prev_frame then
      if ctime - s.last_click_event_time < doubleClickWindowSec then
        let s1 := { s with last_click_event_time := 0 }
        let s2 := { s1 with last_click_event_time := ctime }
        ({ s2 with is_pinching_prev_frame := is_pinching_this_frame },
         ClickEvent.doubleClick)
      else
        let s1 := { s with last_click_event_time := ctime }
        ({ s1 with is_pinching_prev_frame := is_pinching_this_frame },
         ClickEvent.singleClick)
    else
      ({ s with is_pinching_prev_frame := is_pinching_this_frame },
       ClickEvent.noClick)

/-- Run the click state machine over a list of `(pinchDistance, time)` ticks,
collecting the emitted events in order. -/
def clickRun (doubleClickWindowSec pinchThresholdDistance : ℚ)
    (s : PinchState) : List (Option ℚ × ℚ) → PinchState × List ClickEvent
  | [] => (s, [])
  | (d, t) :: rest =>
    let (s1, e) := clickTick doubleClickWindowSec pinchThresholdDistance s d t
    let (s2, es) := clickRun doubleClickWindowSec pinchThresholdDistance s1 rest
    (s2, e :: es)

/-! ## Calibration: pinch threshold derivation

Embeds the numeric core of
`CalibrationWindow.calculate_and_display_new_pinch_threshold`
(`calibration_window.py`, lines 257-276):

```
if avg_open > avg_pinch + 1.0:
    new_threshold = avg_pinch + (avg_open - avg_pinch) * 0.35
    new_threshold = max(5.0, new_threshold)
    self.pt_new_threshold_var.set(f"New Threshold: {new_threshold:.2f}")
else:
    self.pt_new_threshold_var.set("New Threshold: Error (Open <= Pinch or too close)")
```

The validation-error branch is modelled as `none` (no threshold produced). -/
def calculate_new_pinch_threshold (avg_open avg_pinch : ℚ) : Option ℚ :=
  if avg_open > avg_pinch + 1 then
    some (max 5 (avg_pinch + (avg_open - avg_pinch) * (35 / 100)))
  else
    none

/-! ## FrameSource: resolution negotiation

Embeds the resolution part of `WebcamVideoStream._initialize_stream`
(`video_streamer.py`, lines 26-106).  The camera is an external collaborator;
it is abstracted as a record of what `get(CAP_PROP_FRAME_*)` reports before
any `set` (`initialDefault`) and after a `set(w, h)` (`respond (w, h)`).
The first-frame grab at lines 94-99 can fail independently of the resolution
logic and is outside the claim; the returned value is the final
`actual_width`/`actual_height` pair, `none` when the source gives up at
line 86 ("Could not establish any valid camera resolution"). -/

structure CameraDevice where
  initialDefault : ℤ × ℤ
  respond : ℤ × ℤ → ℤ × ℤ

/-- Steps 1-3 of `_initialize_stream` (lines 36-58): fall back to the
device's initial default when the requested resolution is invalid, `set`
whatever was chosen (only when positive), and read back the negotiated
resolution. -/
def firstNegotiated (requestedWidth requestedHeight : ℤ) (dev : CameraDevice) : ℤ × ℤ :=
  let finalToSet :=
    if requestedWidth > 0 ∧ requestedHeight > 0 then (requestedWidth, requestedHeight)
    else dev.initialDefault
  if finalToSet.1 > 0 ∧ finalToSet.2 > 0 then dev.respond finalToSet
  else dev.initialDefault

/-- Lines 63-68: a valid request whose negotiated resolution differs by more
than 50% of the request in either dimension (`abs(actual - requested) >
requested * 0.5`, evaluated in float, here exact in `ℚ`). -/
def significantlyDifferentFromRequest (requestedWidth requestedHeight : ℤ)
    (cur : ℤ × ℤ) : Prop :=
  (requestedWidth > 0 ∧ requestedHeight > 0) ∧
    ((|cur.1 - requestedWidth| : ℚ) > (requestedWidth : ℚ) * (1 / 2) ∨
     (|cur.2 - requestedHeight| : ℚ) > (requestedHeight : ℚ) * (1 / 2))

instance (requestedWidth requestedHeight : ℤ) (cur : ℤ × ℤ) :
    Decidable (significantlyDifferentFromRequest requestedWidth requestedHeight cur) := by
  unfold significantlyDifferentFromRequest
  infer_instance

/-- Step 4 of `_initialize_stream` (lines 60-91): re-apply the device's
initial default when the negotiated resolution is zero in a dimension or
significantly different from a valid request; fail only when no valid
resolution can be established at all. -/
def initializeResolution (requestedWidth requestedHeight : ℤ) (dev : CameraDevice) :
    Option (ℤ × ℤ) :=
  let current := firstNegotiated requestedWidth requestedHeight dev
  if current.1 = 0 ∨ current.2 = 0 ∨
      significantlyDifferentFromRequest requestedWidth requestedHeight current then
    if dev.initialDefault.1 > 0 ∧ dev.initialDefault.2 > 0 then
      some (dev.respond dev.initialDefault)
    else if current.1 = 0 ∨ current.2 = 0 then none
    else some current
  else some current

/-- A 640x480 camera that ignores every `set` request. -/
def refusingDevice : CameraDevice :=
  ⟨(640, 480), fun _ => (640, 480)⟩

/-- A 640x480 camera that answers the 480x360 request with a drastically
smaller 160x120 mode and honours everything else. -/
def fallbackDevice : CameraDevice :=
  ⟨(640, 480), fun r => if r = (480, 360) then (160, 120) else (640, 480)⟩

/-! ## SmoothingFilter

Embeds the two-stage cursor smoothing of
`HandMouseControllerApp.process_video_frame` (`main_app.py`, lines 381-389
for the detected branch, lines 408-411 for the no-hand branch; identical to
`main.py`, lines 323-335 and 357-361).  The x and y axes run the same code
on independent state, so one axis is modelled. -/

structure SmoothState where
  prev_cursor : ℚ
  raw_target_history : List ℚ
  deriving DecidableEq

/-- Model of `collections.deque` with maxlen `cap`: append on the right, evicting
from the left when over capacity. -/
def dequeAppend (cap : ℕ) (l : List ℚ) (x : ℚ) : List ℚ :=
  let l2 := l ++ [x]
  if cap < l2.length then l2.drop (l2.length - cap) else l2

/-- One smoothing tick.  `rawTarget = none` models the no-hand branch (line
411: the history deques are cleared, the exponential state `prev_cursor` is
untouched).  With a detected raw target: append to the history (line
381-382), stage 1 is the arithmetic mean of the populated history with the
raw target itself as fallback for an empty deque (lines 383-386), stage 2 is
`prev * (1 - α) + avg * α` (lines 387-389). -/
def smoothTick (cap : ℕ) (α : ℚ) (s : SmoothState) (rawTarget : Option ℚ) : SmoothState :=
  match rawTarget with
  | none => { s with raw_target_history := [] }
  | some r =>
    let h := dequeAppend cap s.raw_target_history r
    let avg := if h.length ≠ 0 then h.sum / (h.length : ℚ) else r
    { prev_cursor := s.prev_cursor * (1 - α) + avg * α, raw_target_history := h }

/-- Iterate the smoothing tick on a constant detected raw target `T`. -/
def runConstTarget (cap : ℕ) (α T : ℚ) (s : SmoothState) : ℕ → SmoothState
  | 0 => s
  | n + 1 => smoothTick cap α (runConstTarget cap α T s n) (some T)

/-! ## CoordinateMapper

Embeds the active-region / coordinate-mapping computation of
`HandMouseControllerApp.process_video_frame` (`main_app.py`, lines 349-380):
sensitivity scaling, clipping to `[0, 1]`, the 0.01 degeneracy fix, pixel
bounds via Python `int()`, clamp, and `np.interp` to the screen. -/

structure ActiveRegion where
  x_min_percent : ℚ
  x_max_percent : ℚ
  y_min_percent : ℚ
  y_max_percent : ℚ
  deriving DecidableEq

/-- Scalar `np.clip(v, 0.0, 1.0)`. -/
def clip01 (x : ℚ) : ℚ := min (max x 0) 1

/-- Python `int()`: truncation toward zero. -/
def pyInt (q : ℚ) : ℤ := if 0 ≤ q then ⌊q⌋ else ⌈q⌉

/-- Lines 349-361: the effective active region — center of the base region,
half-spans divided by the sensitivity, clipped to `[0, 1]`, and a minimum
0.01 gap forced when degenerate. -/
def effectiveRegion (r : ActiveRegion) (sensitivity : ℚ) : ActiveRegion :=
  let center_x := (r.x_min_percent + r.x_max_percent) / 2
  let center_y := (r.y_min_percent + r.y_max_percent) / 2
  let base_w := r.x_max_percent - r.x_min_percent
  let base_h := r.y_max_percent - r.y_min_percent
  let eff_w := base_w / sensitivity
  let eff_h := base_h / sensitivity
  let x_min := clip01 (center_x - eff_w / 2)
  let x_max := clip01 (center_x + eff_w / 2)
  let y_min := clip01 (center_y - eff_h / 2)
  let y_max := clip01 (center_y + eff_h / 2)
  let x_max := if x_min ≥ x_max then x_min + 1 / 100 else x_max
  let y_max := if y_min ≥ y_max then y_min + 1 / 100 else y_max
  ⟨x_min, x_max, y_min, y_max⟩

/-- Lines 362-365: `(ax1, ay1, ax2, ay2)`, the effective region scaled to
frame pixels through Python `int()`. -/
def activeRegionPixelBounds (r : ActiveRegion) (sensitivity : ℚ)
    (frameWidth frameHeight : ℕ) : ℤ × ℤ × ℤ × ℤ :=
  let er := effectiveRegion r sensitivity
  (pyInt (er.x_min_percent * frameWidth), pyInt (er.y_min_percent * frameHeight),
   pyInt (er.x_max_percent * frameWidth), pyInt (er.y_max_percent * frameHeight))

/-- Scalar `np.clip(x, lo, hi)`. -/
def npClip (x lo hi : ℚ) : ℚ := min (max x lo) hi

/-- Model of `np.interp(x, (x0, x1), (f0, f1))` for two increasing sample points:
constant extension outside, linear interpolation inside. -/
def npInterp (x x0 x1 f0 f1 : ℚ) : ℚ :=
  if x ≤ x0 then f0
  else if x1 ≤ x then f1
  else f0 + (x - x0) * (f1 - f0) / (x1 - x0)

/-- Lines 377-380: clamp the fingertip pixel position into the effective
region's pixel bounds, then interpolate from those bounds to
`(0, screenWidth)` and `(0, screenHeight)`. -/
def mapToScreen (ax1 ay1 ax2 ay2 : ℤ) (screenWidth screenHeight : ℕ)
    (ix iy : ℚ) : ℚ × ℚ :=
  let clamped_ix := npClip ix ax1 ax2
  let clamped_iy := npClip iy ay1 ay2
  (npInterp clamped_ix ax1 ax2 0 screenWidth,
   npInterp clamped_iy ay1 ay2 0 screenHeight)

/-! ## CalibrationController

Embeds the per-tick state machine of `CalibrationWindow`
(`calibration_window.py`): `process_ar_capture` (lines 167-198),
`process_pinch_capture` (lines 217-255), the threshold derivation driver
(lines 257-276), and `apply_and_save_settings` (lines 278-304).  The
tkinter string variables holding results (`pt_open_dist_var`,
`pt_pinch_dist_var`, `pt_new_threshold_var`) are modelled as `Option ℚ`
result fields — `none` for "Not set" / error strings.  The source's only
store of an average is its `:.2f` rendering (lines 237 and 247), and every
later read parses that string back (lines 264-265), so the modelled stored
value is the 2-decimal rounding of the computed average. -/

inductive CalibState
  | idle
  | waitingTopLeft
  | waitingBottomRight
  | waitingOpenHand
  | waitingPinch
  deriving DecidableEq

inductive CalibStatus
  | notDetected
  | counting
  | captured
  | failed
  | idleTick
  deriving DecidableEq

structure CalibSession where
  calibration_state : CalibState
  temp_active_region_tl_norm : Option (ℚ × ℚ)
  temp_active_region_br_norm : Option (ℚ × ℚ)
  temp_open_hand_distances : List ℚ
  temp_pinch_distances : List ℚ
  capture_countdown : ℕ
  avg_open_dist : Option ℚ
  avg_pinch_dist : Option ℚ
  new_threshold : Option ℚ
  deriving DecidableEq

/-- Embeds `process_ar_capture` (lines 167-198).  `norm = none` is the
missing-fingertip guard at line 168 (reports "not detected", touches
nothing); with a valid position a positive countdown is decremented (line
172-180) and at zero the corner for the waiting state is captured and the
state returns to idle. -/
def process_ar_capture (s : CalibSession) (norm : Option (ℚ × ℚ)) :
    CalibSession × CalibStatus :=
  match norm with
  | none => (s, CalibStatus.notDetected)
  | some p =>
    if 0 < s.capture_countdown then
      ({ s with capture_countdown := s.capture_countdown - 1 }, CalibStatus.counting)
    else
      match s.calibration_state with
      | CalibState.waitingTopLeft =>
        ({ s with temp_active_region_tl_norm := some p,
                  calibration_state := CalibState.idle }, CalibStatus.captured)
      | CalibState.waitingBottomRight =>
        ({ s with temp_active_region_br_norm := some p,
                  calibration_state := CalibState.idle }, CalibStatus.captured)
      | _ => (s, CalibStatus.idleTick)

/-- Round half to even at integer precision (Python `round` / `format` tie
behaviour; no theorem below depends on the tie case). -/
def roundHalfEven (q : ℚ) : ℤ :=
  let f := ⌊q⌋
  let frac := q - f
  if frac < 1 / 2 then f
  else if 1 / 2 < frac then f + 1
  else if f % 2 = 0 then f else f + 1

/-- Python `round(q, n)` and the `f"{q:.nf}"` rendering: nearest multiple of
`10 ^ (-n)`, ties to even. -/
def pyRound (n : ℕ) (q : ℚ) : ℚ :=
  (roundHalfEven (q * 10 ^ n) : ℚ) / 10 ^ n

/-- Embeds `calculate_and_display_new_pinch_threshold` acting on the session state:
parses both stored averages back from their 2-decimal renderings (lines
264-265; the stored fields already carry that rounding) and stores the
derived threshold; a missing average (parse failure) or the validation
error leaves `none` (the Error strings that `apply_and_save_settings`
later skips). -/
def run_threshold_calculation (s : CalibSession) : CalibSession :=
  match s.avg_open_dist, s.avg_pinch_dist with
  | some o, some p => { s with new_threshold := calculate_new_pinch_threshold o p }
  | _, _ => { s with new_threshold := none }

/-- Embeds `process_pinch_capture` (lines 217-255).  `dist = none` models the guard
at line 218 (`None` or `float('inf')`, both reported as "not clear" with no
state change).  During a positive countdown the distance is appended to the
sample list of the waiting state and the countdown decremented; at zero the
collected samples are averaged and the average is stored as its `:.2f`
rendering — the 2-decimal rounding, lines 237 and 247 — (pinch completion
also runs the threshold derivation) or a failure is reported when no
samples were collected, and the state returns to idle. -/
def process_pinch_capture (s : CalibSession) (dist : Option ℚ) :
    CalibSession × CalibStatus :=
  match dist with
  | none => (s, CalibStatus.notDetected)
  | some d =>
    if 0 < s.capture_countdown then
      match s.calibration_state with
      | CalibState.waitingOpenHand =>
        ({ s with capture_countdown := s.capture_countdown - 1,
                  temp_open_hand_distances := s.temp_open_hand_distances ++ [d] },
         CalibStatus.counting)
      | CalibState.waitingPinch =>
        ({ s with capture_countdown := s.capture_countdown - 1,
                  temp_pinch_distances := s.temp_pinch_distances ++ [d] },
         CalibStatus.counting)
      | _ =>
        ({ s with capture_countdown := s.capture_countdown - 1 }, CalibStatus.counting)
    else
      match s.calibration_state with
      | CalibState.waitingOpenHand =>
        if s.temp_open_hand_distances ≠ [] then
          ({ s with
              avg_open_dist := some (pyRound 2 (s.temp_open_hand_distances.sum /
                (s.temp_open_hand_distances.length : ℚ))),
              calibration_state := CalibState.idle }, CalibStatus.captured)
        else
          ({ s with calibration_state := CalibState.idle }, CalibStatus.failed)
      | CalibState.waitingPinch =>
        if s.temp_pinch_distances ≠ [] then
          let s1 := { s with
            avg_pinch_dist := some (pyRound 2 (s.temp_pinch_distances.sum /
              (s.temp_pinch_distances.length : ℚ))) }
          ({ run_threshold_calculation s1 with calibration_state := CalibState.idle },
           CalibStatus.captured)
        else
          ({ s with calibration_state := CalibState.idle }, CalibStatus.failed)
      | _ => (s, CalibStatus.idleTick)

/-- The five config keys `apply_and_save_settings` touches; defaults from
`config_manager.DEFAULT_CONFIG`. -/
structure Config where
  active_region_x_min_percent : ℚ
  active_region_x_max_percent : ℚ
  active_region_y_min_percent : ℚ
  active_region_y_max_percent : ℚ
  pinch_threshold_distance : ℚ
  deriving DecidableEq

def defaultConfig : Config :=
  ⟨3 / 20, 17 / 20, 3 / 20, 17 / 20, 25⟩

/-- Embeds `apply_and_save_settings` (lines 278-304): the active-region block and
the threshold block commit independently; the corner coordinates are sorted
by `min`/`max`, committed `round`ed to 3 decimals only when both gaps
exceed 0.01; the threshold is committed `round`ed to 2 decimals whenever
one was derived.  The returned flag is `applied_changes`, which gates
`save_config` (persistence). -/
def apply_and_save_settings (s : CalibSession) (c : Config) : Config × Bool :=
  let arStep : Config × Bool :=
    match s.temp_active_region_tl_norm, s.temp_active_region_br_norm with
    | some tl, some br =>
      let x_min := min tl.1 br.1
      let x_max := max tl.1 br.1
      let y_min := min tl.2 br.2
      let y_max := max tl.2 br.2
      if x_max > x_min + 1 / 100 ∧ y_max > y_min + 1 / 100 then
        ({ c with active_region_x_min_percent := pyRound 3 x_min,
                  active_region_x_max_percent := pyRound 3 x_max,
                  active_region_y_min_percent := pyRound 3 y_min,
                  active_region_y_max_percent := pyRound 3 y_max }, true)
      else (c, false)
    | _, _ => (c, false)
  let thStep : Config × Bool :=
    match s.new_threshold with
    | some t => ({ arStep.1 with pinch_threshold_distance := pyRound 2 t }, true)
    | none => (arStep.1, false)
  (thStep.1, arStep.2 || thStep.2)

/-- A session holding only the two captured corner points (threshold part
empty), as after a pure active-region calibration. -/
def arOnlySession (tl br : ℚ × ℚ) : CalibSession :=
  ⟨CalibState.idle, some tl, some br, [], [], 0, none, none, none⟩

end GestureFlow

namespace GestureFlow

/-- C1: the reset `last_click_event_time = 0` in the double-click branch is
dead code (immediately overwritten by the unconditional
`last_click_event_time = ctime`), so a third rapid pinch rising edge pairs
with the double-click into another double-click, contradicting the claim
that it emits a single click.  Three rising edges at times 10, 10.2, 10.4
(threshold 25, window 0.4s, pinch distance 10, released distance 100 in
between) produce single, double, double. -/
theorem clickRun_third_rapid_edge_double_clicks :
    clickRun (2/5) 25 ⟨false, 0⟩
      [(some 10, 10), (some 100, 101/10), (some 10, 102/10),
       (some 100, 103/10), (some 10, 104/10)] =
    (⟨true, 52/5⟩,
     [ClickEvent.singleClick, ClickEvent.noClick, ClickEvent.doubleClick,
      ClickEvent.noClick, ClickEvent.doubleClick]) := by
  norm_num [clickRun, clickTick]

/-- C2: for every pair of averages, if `avg_open > avg_pinch + 1` the derived
threshold is `max 5 (avg_pinch + (avg_open - avg_pinch) * 0.35)`, otherwise
no threshold is produced; in particular `derive 40 10 = 20.5` and
`derive 11 10` is a validation error. -/
theorem calculate_new_pinch_threshold_spec (o p : ℚ) :
    (o > p + 1 →
      calculate_new_pinch_threshold o p = some (max 5 (p + (o - p) * (35 / 100)))) ∧
    (¬ o > p + 1 → calculate_new_pinch_threshold o p = none) ∧
    calculate_new_pinch_threshold 40 10 = some (41/2) ∧
    calculate_new_pinch_threshold 11 10 = none := by
  refine ⟨fun h => ?_, fun h => ?_, ?_, ?_⟩
  · simp [calculate_new_pinch_threshold, h]
  · simp [calculate_new_pinch_threshold, h]
  · norm_num [calculate_new_pinch_threshold]
  · norm_num [calculate_new_pinch_threshold]

/-- Witness for C2 at `(o, p) = (40, 10)`: the gap precondition holds and the
derived threshold is the 35% interpolation, not floored. -/
theorem calculate_new_pinch_threshold_spec_witness :
    calculate_new_pinch_threshold 40 10 = some (max 5 (10 + (40 - 10) * (35 / 100))) :=
  (calculate_new_pinch_threshold_spec 40 10).1 (by norm_num)

/-- C4: whenever the first negotiated resolution is zero in a dimension or
differs from a valid request by more than 50% in a dimension, and the
device's original default resolution is nonzero, the source re-applies the
default and `actual_width`/`actual_height` are whatever the device then
reports; in particular requesting 480x360 from a native-640x480 device that
refuses the set ends with 640x480. -/
theorem initializeResolution_fallback (requestedWidth requestedHeight : ℤ)
    (dev : CameraDevice)
    (hdefault : 0 < dev.initialDefault.1 ∧ 0 < dev.initialDefault.2)
    (hcond : (firstNegotiated requestedWidth requestedHeight dev).1 = 0 ∨
      (firstNegotiated requestedWidth requestedHeight dev).2 = 0 ∨
      significantlyDifferentFromRequest requestedWidth requestedHeight
        (firstNegotiated requestedWidth requestedHeight dev)) :
    initializeResolution requestedWidth requestedHeight dev =
      some (dev.respond dev.initialDefault) ∧
    initializeResolution 480 360 refusingDevice = some (640, 480) := by
  constructor
  · unfold initializeResolution
    rw [if_pos hcond, if_pos ⟨hdefault.1, hdefault.2⟩]
  · norm_num [initializeResolution, firstNegotiated,
      significantlyDifferentFromRequest, refusingDevice]

/-- Witness for C4: a device whose answer to the 480x360 request is 160x120
(more than 50% off) triggers the fallback, and the final resolution is what
the device reports after re-applying its 640x480 default. -/
theorem initializeResolution_fallback_witness :
    initializeResolution 480 360 fallbackDevice =
      some (fallbackDevice.respond fallbackDevice.initialDefault) :=
  (initializeResolution_fallback 480 360 fallbackDevice
    (by norm_num [fallbackDevice])
    (by
      right; right
      norm_num [firstNegotiated, fallbackDevice, significantlyDifferentFromRequest])).1

/-- Members of the deque after appending `x` come from the old list or are
`x` itself. -/
theorem mem_dequeAppend {cap : ℕ} {l : List ℚ} {x y : ℚ}
    (hy : y ∈ dequeAppend cap l x) : y ∈ l ∨ y = x := by
  have : y ∈ l ++ [x] := by
    unfold dequeAppend at hy
    dsimp only at hy
    by_cases h : cap < (l ++ [x]).length
    · rw [if_pos h] at hy
      exact List.mem_of_mem_drop hy
    · rw [if_neg h] at hy
      exact hy
  simpa using this

/-- The sum of a list whose members all equal `T` is `T` times its length. -/
theorem sum_of_const_list {l : List ℚ} {T : ℚ} (hl : ∀ y ∈ l, y = T) :
    l.sum = T * l.length := by
  induction l with
  | nil => simp
  | cons a t ih =>
    have ha : a = T := hl a (by simp)
    have ht : ∀ y ∈ t, y = T := fun y hy => hl y (by simp [hy])
    simp only [List.sum_cons, List.length_cons, ih ht, ha]
    push_cast
    ring

/-- One smoothing tick on constant input `T`: when the history holds only
`T`, the stage-1 average is `T`, the gap to `T` is multiplied by `1 - α`,
and the history again holds only `T`. -/
theorem smoothTick_const_gap (cap : ℕ) (α T : ℚ) (s : SmoothState)
    (hhist : ∀ y ∈ s.raw_target_history, y = T) :
    (smoothTick cap α s (some T)).prev_cursor = s.prev_cursor * (1 - α) + T * α ∧
    (∀ y ∈ (smoothTick cap α s (some T)).raw_target_history, y = T) := by
  have hmem : ∀ y ∈ dequeAppend cap s.raw_target_history T, y = T := by
    intro y hy
    rcases mem_dequeAppend hy with h | h
    · exact hhist y h
    · exact h
  have havg :
      (if (dequeAppend cap s.raw_target_history T).length ≠ 0 then
        (dequeAppend cap s.raw_target_history T).sum /
          ((dequeAppend cap s.raw_target_history T).length : ℚ)
      else T) = T := by
    split
    · rename_i hne
      rw [sum_of_const_list hmem]
      rw [mul_div_assoc, div_self (by exact_mod_cast hne), mul_one]
    · rfl
  constructor
  · show s.prev_cursor * (1 - α) + _ * α = _
    rw [havg]
  · exact hmem

/-- Iterated version of `smoothTick_const_gap`: after `n` constant-target
ticks the gap is `(1 - α) ^ n` times the initial gap, and the history still
holds only `T`. -/
theorem runConstTarget_gap (cap : ℕ) (α T : ℚ) (s : SmoothState)
    (hhist : ∀ y ∈ s.raw_target_history, y = T) (n : ℕ) :
    (runConstTarget cap α T s n).prev_cursor - T =
      (1 - α) ^ n * (s.prev_cursor - T) ∧
    (∀ y ∈ (runConstTarget cap α T s n).raw_target_history, y = T) := by
  induction n with
  | zero => simpa using ⟨rfl, hhist⟩
  | succ n ih =>
    have hstep := smoothTick_const_gap cap α T (runConstTarget cap α T s n) ih.2
    refine ⟨?_, hstep.2⟩
    show (smoothTick cap α (runConstTarget cap α T s n) (some T)).prev_cursor - T = _
    rw [hstep.1, pow_succ]
    linear_combination (1 - α) * ih.1

/-- C5: the smoothing step is `next = prev * (1 - α) + stage1 * α` with
stage1 the mean of the history; once the history holds only the constant
target `T` and `0 < α < 1`, each tick multiplies the distance to `T` by
`1 - α` (monotone convergence), and with `α = 0.20` the cursor is within 1%
of the initial gap after 21 ticks. -/
theorem smoothing_converges (cap : ℕ) (α T : ℚ) (s : SmoothState)
    (h0 : 0 < α) (h1 : α < 1)
    (hhist : ∀ y ∈ s.raw_target_history, y = T) :
    (smoothTick cap α s (some T)).prev_cursor = s.prev_cursor * (1 - α) + T * α ∧
    |(smoothTick cap α s (some T)).prev_cursor - T| = (1 - α) * |s.prev_cursor - T| ∧
    |(smoothTick cap α s (some T)).prev_cursor - T| ≤ |s.prev_cursor - T| ∧
    (∀ n, |(runConstTarget cap α T s n).prev_cursor - T| =
      (1 - α) ^ n * |s.prev_cursor - T|) ∧
    |(runConstTarget cap (1 / 5) T s 21).prev_cursor - T| ≤
      (1 / 100) * |s.prev_cursor - T| := by
  have hfac : (0 : ℚ) ≤ 1 - α := by linarith
  have habs : ∀ n, |(runConstTarget cap α T s n).prev_cursor - T| =
      (1 - α) ^ n * |s.prev_cursor - T| := by
    intro n
    rw [(runConstTarget_gap cap α T s hhist n).1, abs_mul, abs_pow,
      abs_of_nonneg hfac]
  have hstep := smoothTick_const_gap cap α T s hhist
  have hone : |(smoothTick cap α s (some T)).prev_cursor - T| =
      (1 - α) * |s.prev_cursor - T| := by
    have h1gap : (smoothTick cap α s (some T)).prev_cursor - T =
        (1 - α) * (s.prev_cursor - T) := by
      rw [hstep.1]; ring
    rw [h1gap, abs_mul, abs_of_nonneg hfac]
  refine ⟨hstep.1, hone, ?_, habs, ?_⟩
  · rw [hone]
    nlinarith [abs_nonneg (s.prev_cursor - T)]
  · have h21 : |(runConstTarget cap (1 / 5) T s 21).prev_cursor - T| =
        (1 - 1 / 5 : ℚ) ^ 21 * |s.prev_cursor - T| := by
      rw [(runConstTarget_gap cap (1 / 5) T s hhist 21).1, abs_mul, abs_pow,
        abs_of_nonneg (by norm_num)]
    rw [h21]
    have hpow : ((1 : ℚ) - 1 / 5) ^ 21 ≤ 1 / 100 := by norm_num
    nlinarith [abs_nonneg (s.prev_cursor - T)]

/-- Witness for C5 at `α = 1/5`, `T = 100`, starting cursor `0` with empty
history. -/
theorem smoothing_converges_witness :
    (smoothTick 5 (1 / 5) ⟨0, []⟩ (some 100)).prev_cursor = 0 * (1 - 1 / 5) + 100 * (1 / 5) ∧
    |(smoothTick 5 (1 / 5) ⟨0, []⟩ (some 100)).prev_cursor - 100| =
      (1 - 1 / 5) * |(0 : ℚ) - 100| ∧
    |(smoothTick 5 (1 / 5) ⟨0, []⟩ (some 100)).prev_cursor - 100| ≤ |(0 : ℚ) - 100| ∧
    (∀ n, |(runConstTarget 5 (1 / 5) 100 ⟨0, []⟩ n).prev_cursor - 100| =
      (1 - 1 / 5) ^ n * |(0 : ℚ) - 100|) ∧
    |(runConstTarget 5 (1 / 5) 100 ⟨0, []⟩ 21).prev_cursor - 100| ≤
      (1 / 100) * |(0 : ℚ) - 100| :=
  smoothing_converges 5 (1 / 5) 100 ⟨0, []⟩ (by norm_num) (by norm_num)
    (by intro y hy; simp at hy)

/-- A detected tick on an empty history yields the one-sample history and a
stage-1 average equal to that sample. -/
theorem smoothTick_fresh (cap : ℕ) (hcap : 1 ≤ cap) (α r : ℚ) (s : SmoothState)
    (hempty : s.raw_target_history = []) :
    (smoothTick cap α s (some r)).raw_target_history = [r] ∧
    (smoothTick cap α s (some r)).prev_cursor = s.prev_cursor * (1 - α) + r * α := by
  have hdeq : dequeAppend cap s.raw_target_history r = [r] := by
    rw [hempty]
    unfold dequeAppend
    dsimp only
    rw [if_neg (by simp only [List.nil_append, List.length_cons, List.length_nil]; omega)]
    simp
  unfold smoothTick
  dsimp only
  rw [hdeq]
  norm_num

/-- C6: an undetected tick clears the raw-target history and keeps the
exponential-smoothing cursor state; the next detected tick therefore works
on a one-sample history whose stage-1 average is exactly that sample, with
no blend of pre-loss samples. -/
theorem history_cleared_on_detection_loss (cap : ℕ) (hcap : 1 ≤ cap) (α : ℚ)
    (s0 : SmoothState) (raws : List ℚ) (r : ℚ) :
    (smoothTick cap α (raws.foldl (fun s x => smoothTick cap α s (some x)) s0)
        none).raw_target_history = [] ∧
    (smoothTick cap α (raws.foldl (fun s x => smoothTick cap α s (some x)) s0)
        none).prev_cursor =
      (raws.foldl (fun s x => smoothTick cap α s (some x)) s0).prev_cursor ∧
    (smoothTick cap α
        (smoothTick cap α (raws.foldl (fun s x => smoothTick cap α s (some x)) s0) none)
        (some r)).raw_target_history = [r] ∧
    (smoothTick cap α
        (smoothTick cap α (raws.foldl (fun s x => smoothTick cap α s (some x)) s0) none)
        (some r)).prev_cursor =
      (raws.foldl (fun s x => smoothTick cap α s (some x)) s0).prev_cursor * (1 - α) +
        r * α := by
  have hfresh := smoothTick_fresh cap hcap α r
    (smoothTick cap α (raws.foldl (fun s x => smoothTick cap α s (some x)) s0) none) rfl
  exact ⟨rfl, rfl, hfresh.1, hfresh.2⟩

/-- Witness for C6: three detected samples, one undetected tick, one
detected sample at buffer size 5 and `α = 1/5`. -/
theorem history_cleared_on_detection_loss_witness :
    (smoothTick 5 (1 / 5) ([3, 4, 5].foldl (fun s x => smoothTick 5 (1 / 5) s (some x)) ⟨0, []⟩)
        none).raw_target_history = [] ∧
    (smoothTick 5 (1 / 5) ([3, 4, 5].foldl (fun s x => smoothTick 5 (1 / 5) s (some x)) ⟨0, []⟩)
        none).prev_cursor =
      ([3, 4, 5].foldl (fun s x => smoothTick 5 (1 / 5) s (some x)) (⟨0, []⟩ : SmoothState)).prev_cursor ∧
    (smoothTick 5 (1 / 5)
        (smoothTick 5 (1 / 5) ([3, 4, 5].foldl (fun s x => smoothTick 5 (1 / 5) s (some x)) ⟨0, []⟩) none)
        (some 7)).raw_target_history = [7] ∧
    (smoothTick 5 (1 / 5)
        (smoothTick 5 (1 / 5) ([3, 4, 5].foldl (fun s x => smoothTick 5 (1 / 5) s (some x)) ⟨0, []⟩) none)
        (some 7)).prev_cursor =
      ([3, 4, 5].foldl (fun s x => smoothTick 5 (1 / 5) s (some x)) (⟨0, []⟩ : SmoothState)).prev_cursor * (1 - 1 / 5) +
        7 * (1 / 5) :=
  history_cleared_on_detection_loss 5 (by norm_num) (1 / 5) ⟨0, []⟩ [3, 4, 5] 7

/-- Clamping a value already inside the bounds is the identity. -/
theorem npClip_of_mem {x lo hi : ℚ} (hlo : lo ≤ x) (hhi : x ≤ hi) :
    npClip x lo hi = x := by
  unfold npClip
  rw [max_eq_left hlo, min_eq_left hhi]

/-- Interpolation over an increasing two-point grid sends the grid midpoint to
half the target span. -/
theorem npInterp_midpoint (x0 x1 : ℤ) (S : ℕ) (h : x0 < x1) :
    npInterp (((x0 : ℚ) + x1) / 2) x0 x1 0 S = (S : ℚ) / 2 := by
  have hlt : (x0 : ℚ) < x1 := by exact_mod_cast h
  unfold npInterp
  rw [if_neg (not_le.mpr (by linarith)), if_neg (not_le.mpr (by linarith))]
  have hne : (x1 : ℚ) - x0 ≠ 0 := by linarith
  field_simp
  ring

/-- C7: for an active region whose effective width and height (after
sensitivity scaling, clipping and the 0.01 degeneracy fix) exceed 0.01 and
whose pixel bounds are nondegenerate (the presupposition for a center of
those bounds and for interpolation from them), the clamp-and-interpolate
mapping sends a fingertip at the exact center of the effective region's
pixel bounds to the screen midpoint. -/
theorem mapper_center_to_midpoint (r : ActiveRegion) (sensitivity : ℚ)
    (frameWidth frameHeight screenWidth screenHeight : ℕ)
    (ax1 ay1 ax2 ay2 : ℤ)
    (_hbounds : activeRegionPixelBounds r sensitivity frameWidth frameHeight =
      (ax1, ay1, ax2, ay2))
    (_hw : 1 / 100 < (effectiveRegion r sensitivity).x_max_percent -
      (effectiveRegion r sensitivity).x_min_percent)
    (_hh : 1 / 100 < (effectiveRegion r sensitivity).y_max_percent -
      (effectiveRegion r sensitivity).y_min_percent)
    (hax : ax1 < ax2) (hay : ay1 < ay2) :
    mapToScreen ax1 ay1 ax2 ay2 screenWidth screenHeight
      (((ax1 : ℚ) + ax2) / 2) (((ay1 : ℚ) + ay2) / 2)
      = ((screenWidth : ℚ) / 2, (screenHeight : ℚ) / 2) := by
  have haxq : (ax1 : ℚ) ≤ ax2 := by exact_mod_cast le_of_lt hax
  have hayq : (ay1 : ℚ) ≤ ay2 := by exact_mod_cast le_of_lt hay
  unfold mapToScreen
  dsimp only
  rw [npClip_of_mem (by linarith) (by linarith),
    npClip_of_mem (by linarith) (by linarith),
    npInterp_midpoint ax1 ax2 screenWidth hax,
    npInterp_midpoint ay1 ay2 screenHeight hay]

/-- Witness for C7: the default 0.15-0.85 region at sensitivity 1 on a
640x480 frame and a 1920x1080 screen; the center of the 96..544 x 72..408
pixel bounds lands on (960, 540). -/
theorem mapper_center_to_midpoint_witness :
    mapToScreen 96 72 544 408 1920 1080
      (((96 : ℤ) + 544 : ℚ) / 2) (((72 : ℤ) + 408 : ℚ) / 2)
      = (((1920 : ℕ) : ℚ) / 2, ((1080 : ℕ) : ℚ) / 2) :=
  mapper_center_to_midpoint ⟨3 / 20, 17 / 20, 3 / 20, 17 / 20⟩ 1 640 480 1920 1080
    96 72 544 408
    (by norm_num [activeRegionPixelBounds, effectiveRegion, clip01, pyInt])
    (by norm_num [effectiveRegion, clip01])
    (by norm_num [effectiveRegion, clip01])
    (by norm_num) (by norm_num)

/-- C8: during a positive capture countdown, a tick with invalid input (no
fingertip position for the active-region states; missing or infinite pinch
distance for the open-hand/pinch states) leaves the whole calibration
session — countdown, sample lists, corner points and state — unchanged and
only reports a status; a tick with valid input decrements the countdown. -/
theorem calibration_invalid_tick_noop (s : CalibSession) (p : ℚ × ℚ) (d : ℚ)
    (hcd : 0 < s.capture_countdown) :
    process_ar_capture s none = (s, CalibStatus.notDetected) ∧
    process_pinch_capture s none = (s, CalibStatus.notDetected) ∧
    (process_ar_capture s (some p)).1.capture_countdown = s.capture_countdown - 1 ∧
    (process_pinch_capture s (some d)).1.capture_countdown = s.capture_countdown - 1 := by
  refine ⟨rfl, rfl, ?_, ?_⟩
  · unfold process_ar_capture
    dsimp only
    rw [if_pos hcd]
  · unfold process_pinch_capture
    dsimp only
    rw [if_pos hcd]
    cases s.calibration_state <;> rfl

/-- Witness for C8: a top-left capture session three frames from the end. -/
theorem calibration_invalid_tick_noop_witness :
    process_ar_capture
        ⟨CalibState.waitingTopLeft, none, none, [], [], 3, none, none, none⟩ none =
      (⟨CalibState.waitingTopLeft, none, none, [], [], 3, none, none, none⟩,
        CalibStatus.notDetected) ∧
    process_pinch_capture
        ⟨CalibState.waitingTopLeft, none, none, [], [], 3, none, none, none⟩ none =
      (⟨CalibState.waitingTopLeft, none, none, [], [], 3, none, none, none⟩,
        CalibStatus.notDetected) ∧
    (process_ar_capture
        ⟨CalibState.waitingTopLeft, none, none, [], [], 3, none, none, none⟩
        (some (1 / 2, 1 / 2))).1.capture_countdown = 3 - 1 ∧
    (process_pinch_capture
        ⟨CalibState.waitingTopLeft, none, none, [], [], 3, none, none, none⟩
        (some 40)).1.capture_countdown = 3 - 1 :=
  calibration_invalid_tick_noop
    ⟨CalibState.waitingTopLeft, none, none, [], [], 3, none, none, none⟩
    (1 / 2, 1 / 2) 40 (by norm_num)

/-- C9 counterexample: the open-hand samples `[1, 2, 2]` have arithmetic
mean 5/3, but the completing tick stores 1.67 — the source's only store of
the average is its `f"...{avg:.2f}"` rendering (line 237), which every
later read parses back (lines 264-265) — so the stored result is not the
arithmetic mean of the collected samples. -/
theorem pinch_capture_stores_rounded_not_exact :
    ([1, 2, 2] : List ℚ).sum / (([1, 2, 2] : List ℚ).length : ℚ) = 5 / 3 ∧
    (process_pinch_capture
        ⟨CalibState.waitingOpenHand, none, none, [1, 2, 2], [], 0, none, none, none⟩
        (some 2)).1.avg_open_dist = some (167 / 100) ∧
    (167 / 100 : ℚ) ≠ 5 / 3 := by
  refine ⟨by norm_num, ?_, by norm_num⟩
  norm_num [process_pinch_capture, pyRound, roundHalfEven]
  simp

/-- C9 (amended): every valid-distance tick during a positive countdown
appends the distance to the sample list of the waiting state; at countdown
zero the stored result is the arithmetic mean of the collected samples
rounded to 2 decimal places (the `:.2f` rendering that later reads parse
back) and the state returns to idle, and with an empty sample list a
failure is reported instead of an average. -/
theorem pinch_capture_sampling_rounded_spec (s : CalibSession) (d : ℚ) :
    (0 < s.capture_countdown → s.calibration_state = CalibState.waitingOpenHand →
      (process_pinch_capture s (some d)).1.temp_open_hand_distances =
        s.temp_open_hand_distances ++ [d] ∧
      (process_pinch_capture s (some d)).1.capture_countdown =
        s.capture_countdown - 1) ∧
    (0 < s.capture_countdown → s.calibration_state = CalibState.waitingPinch →
      (process_pinch_capture s (some d)).1.temp_pinch_distances =
        s.temp_pinch_distances ++ [d]) ∧
    (s.capture_countdown = 0 → s.calibration_state = CalibState.waitingOpenHand →
      s.temp_open_hand_distances ≠ [] →
      (process_pinch_capture s (some d)).1.avg_open_dist =
        some (pyRound 2 (s.temp_open_hand_distances.sum /
          (s.temp_open_hand_distances.length : ℚ))) ∧
      (process_pinch_capture s (some d)).1.calibration_state = CalibState.idle ∧
      (process_pinch_capture s (some d)).2 = CalibStatus.captured) ∧
    (s.capture_countdown = 0 → s.calibration_state = CalibState.waitingOpenHand →
      s.temp_open_hand_distances = [] →
      (process_pinch_capture s (some d)).2 = CalibStatus.failed ∧
      (process_pinch_capture s (some d)).1.avg_open_dist = s.avg_open_dist ∧
      (process_pinch_capture s (some d)).1.calibration_state = CalibState.idle) ∧
    (s.capture_countdown = 0 → s.calibration_state = CalibState.waitingPinch →
      s.temp_pinch_distances ≠ [] →
      (process_pinch_capture s (some d)).1.avg_pinch_dist =
        some (pyRound 2 (s.temp_pinch_distances.sum /
          (s.temp_pinch_distances.length : ℚ))) ∧
      (process_pinch_capture s (some d)).1.calibration_state = CalibState.idle) ∧
    (s.capture_countdown = 0 → s.calibration_state = CalibState.waitingPinch →
      s.temp_pinch_distances = [] →
      (process_pinch_capture s (some d)).2 = CalibStatus.failed) := by
  refine ⟨?_, ?_, ?_, ?_, ?_, ?_⟩
  · intro hcd hst
    unfold process_pinch_capture
    dsimp only
    rw [if_pos hcd, hst]
    exact ⟨rfl, rfl⟩
  · intro hcd hst
    unfold process_pinch_capture
    dsimp only
    rw [if_pos hcd, hst]
  · intro hcd hst hne
    unfold process_pinch_capture
    dsimp only
    rw [if_neg (by omega), hst, if_pos hne]
    exact ⟨rfl, rfl, rfl⟩
  · intro hcd hst hnil
    unfold process_pinch_capture
    dsimp only
    rw [if_neg (by omega), hst, if_neg (by simp [hnil])]
    exact ⟨rfl, rfl, rfl⟩
  · intro hcd hst hne
    unfold process_pinch_capture
    dsimp only
    rw [if_neg (by omega), hst, if_pos hne]
    refine ⟨?_, rfl⟩
    show (run_threshold_calculation _).avg_pinch_dist = _
    unfold run_threshold_calculation
    cases s.avg_open_dist <;> rfl
  · intro hcd hst hnil
    unfold process_pinch_capture
    dsimp only
    rw [if_neg (by omega), hst]
    dsimp only
    rw [if_neg (by simp [hnil])]

/-- Witness for C9 (amended): an open-hand session at countdown 2 appends
the sample and decrements. -/
theorem pinch_capture_sampling_rounded_spec_witness :
    (process_pinch_capture
        ⟨CalibState.waitingOpenHand, none, none, [40], [], 2, none, none, none⟩
        (some 44)).1.temp_open_hand_distances = [40] ++ [44] ∧
    (process_pinch_capture
        ⟨CalibState.waitingOpenHand, none, none, [40], [], 2, none, none, none⟩
        (some 44)).1.capture_countdown = 2 - 1 :=
  (pinch_capture_sampling_rounded_spec
    ⟨CalibState.waitingOpenHand, none, none, [40], [], 2, none, none, none⟩ 44).1
    (by norm_num) rfl

/-- C3 counterexample: a reachable corner pair (fingertip pixel 1 on a
640-wide frame) passes the gap validation, yet the committed x-min is the
3-decimal rounding 0.002, not the exact sorted value 1/640 = 0.0015625. -/
theorem apply_commits_rounded_not_exact :
    (max (1 / 640 : ℚ) (4 / 5) > min (1 / 640 : ℚ) (4 / 5) + 1 / 100) ∧
    (max (1 / 5 : ℚ) (9 / 10) > min (1 / 5 : ℚ) (9 / 10) + 1 / 100) ∧
    (apply_and_save_settings (arOnlySession (1 / 640, 1 / 5) (4 / 5, 9 / 10))
        defaultConfig).1.active_region_x_min_percent = 1 / 500 ∧
    (1 / 500 : ℚ) ≠ 1 / 640 := by
  refine ⟨by norm_num, by norm_num, ?_, by norm_num⟩
  norm_num [apply_and_save_settings, arOnlySession, pyRound, roundHalfEven]

/-- C3 (amended): the apply step sorts the captured corners into
`(xMin, xMax, yMin, yMax)` and commits these four values, each rounded to 3
decimal places, to the config iff both gaps exceed 0.01; the claim's
examples commit `(0.2, 0.8, 0.2, 0.9)` exactly and reject the 0.005-gap
pair. -/
theorem apply_sorted_round3_commit (tl br : ℚ × ℚ) (c : Config) :
    ((max tl.1 br.1 > min tl.1 br.1 + 1 / 100 ∧
      max tl.2 br.2 > min tl.2 br.2 + 1 / 100) →
      apply_and_save_settings (arOnlySession tl br) c =
        ({ c with active_region_x_min_percent := pyRound 3 (min tl.1 br.1),
                  active_region_x_max_percent := pyRound 3 (max tl.1 br.1),
                  active_region_y_min_percent := pyRound 3 (min tl.2 br.2),
                  active_region_y_max_percent := pyRound 3 (max tl.2 br.2) }, true)) ∧
    (¬ (max tl.1 br.1 > min tl.1 br.1 + 1 / 100 ∧
      max tl.2 br.2 > min tl.2 br.2 + 1 / 100) →
      apply_and_save_settings (arOnlySession tl br) c = (c, false)) ∧
    apply_and_save_settings (arOnlySession (1 / 5, 1 / 5) (4 / 5, 9 / 10))
        defaultConfig =
      (⟨1 / 5, 4 / 5, 1 / 5, 9 / 10, 25⟩, true) ∧
    apply_and_save_settings (arOnlySession (1 / 2, 1 / 2) (101 / 200, 101 / 200))
        defaultConfig =
      (defaultConfig, false) := by
  refine ⟨?_, ?_, ?_, ?_⟩
  · intro hgap
    unfold apply_and_save_settings arOnlySession
    dsimp only
    rw [if_pos hgap]
    rfl
  · intro hgap
    unfold apply_and_save_settings arOnlySession
    dsimp only
    rw [if_neg hgap]
    rfl
  · norm_num [apply_and_save_settings, arOnlySession, defaultConfig, pyRound,
      roundHalfEven]
  · norm_num [apply_and_save_settings, arOnlySession, defaultConfig]

/-- Witness for C3 (amended) at the claim's own example corners. -/
theorem apply_sorted_round3_commit_witness :
    apply_and_save_settings (arOnlySession (1 / 5, 1 / 5) (4 / 5, 9 / 10))
        defaultConfig =
      ({ defaultConfig with
          active_region_x_min_percent := pyRound 3 (min (1 / 5 : ℚ) (4 / 5)),
          active_region_x_max_percent := pyRound 3 (max (1 / 5 : ℚ) (4 / 5)),
          active_region_y_min_percent := pyRound 3 (min (1 / 5 : ℚ) (9 / 10)),
          active_region_y_max_percent := pyRound 3 (max (1 / 5 : ℚ) (9 / 10)) }, true) :=
  (apply_sorted_round3_commit (1 / 5, 1 / 5) (4 / 5, 9 / 10) defaultConfig).1
    (by norm_num)

/-- C10: `apply_and_save_settings` is not atomic across the two
calibrations — with both corners captured but a degenerate rectangle, a
derived threshold is still committed (and the change persisted, flag
`true`) while the active-region keys stay at their prior values; conversely
a valid rectangle commits with no derived threshold present, leaving the
threshold key at its prior value. -/
theorem apply_and_save_not_atomic (tl br : ℚ × ℚ) (t : ℚ) (c : Config) :
    (¬ (max tl.1 br.1 > min tl.1 br.1 + 1 / 100 ∧
      max tl.2 br.2 > min tl.2 br.2 + 1 / 100) →
      apply_and_save_settings
          ⟨CalibState.idle, some tl, some br, [], [], 0, none, none, some t⟩ c =
        ({ c with pinch_threshold_distance := pyRound 2 t }, true)) ∧
    ((max tl.1 br.1 > min tl.1 br.1 + 1 / 100 ∧
      max tl.2 br.2 > min tl.2 br.2 + 1 / 100) →
      apply_and_save_settings
          ⟨CalibState.idle, some tl, some br, [], [], 0, none, none, none⟩ c =
        ({ c with active_region_x_min_percent := pyRound 3 (min tl.1 br.1),
                  active_region_x_max_percent := pyRound 3 (max tl.1 br.1),
                  active_region_y_min_percent := pyRound 3 (min tl.2 br.2),
                  active_region_y_max_percent := pyRound 3 (max tl.2 br.2) }, true)) := by
  constructor
  · intro hgap
    unfold apply_and_save_settings
    dsimp only
    rw [if_neg hgap]
    rfl
  · intro hgap
    unfold apply_and_save_settings
    dsimp only
    rw [if_pos hgap]
    rfl

/-- Witness for C10: the degenerate 0.005-gap rectangle with the derived
threshold 20.5 commits only the threshold. -/
theorem apply_and_save_not_atomic_witness :
    apply_and_save_settings
        ⟨CalibState.idle, some (1 / 2, 1 / 2), some (101 / 200, 101 / 200),
          [], [], 0, none, none, some (41 / 2)⟩ defaultConfig =
      ({ defaultConfig with pinch_threshold_distance := pyRound 2 (41 / 2) }, true) :=
  (apply_and_save_not_atomic (1 / 2, 1 / 2) (101 / 200, 101 / 200) (41 / 2)
    defaultConfig).1 (by norm_num)

end GestureFlow
